import Mathlib

/-! The UDP receive path of dhcpd, `udpsock.c`.

A shallow embedding of `src/usr.sbin/dhcpd/udpsock.c` (`udpsock_startup`,
`udpsock_handler`, `udpsock_send_packet`).

The C functions talk to the operating system and to the rest of dhcpd
(`find_subnet`, `do_packet`, `add_protocol`, the `log_*` family). Every such
call is answered by a `World` (one answer per argument tuple) and recorded, in
program order, as an `Event`; a function of the C file becomes a Lean function
from its arguments and the `World` to the list of events it performs (and, for
`udpsock_send_packet`, its return value).

Return codes stay the C integers (`-1`, `0`) and are tested with the same
comparison the C text uses. A pointer to a structure the code reads is an
`Option` of that structure (`none` is `NULL`); a pointer the code only passes
on is a number.
-/

namespace Udpsock

/-! ## Constants of the system headers and of `dhcpd.h` -/

/-- Values the C file takes from headers that are not part of the sources at
hand: the socket constants, the buffer sizes of `struct ifreq` and
`struct interface_info`, the `sizeof` values, and whether `__FreeBSD__` is
defined. Nothing below depends on a particular value. -/
structure Consts where
  AF_INET : Int
  SOCK_DGRAM : Int
  IPPROTO_UDP : Int
  IPPROTO_IP : Int
  IP_RECVIF : Int
  SIOCGIFADDR : Int
  /-- The value of `sizeof(ifr.ifr_name)`. -/
  IFNAMSIZ : Nat
  /-- The value of `sizeof(iface.name)`. -/
  sizeof_iface_name : Nat
  /-- The value of `sizeof(struct hardware)`. -/
  sizeof_hardware : Nat
  /-- The value of `sizeof(struct sockaddr_in)`. -/
  sizeof_sockaddr_in : Nat
  /-- The value of `sizeof(struct udpsock)`. -/
  sizeof_udpsock : Nat
  /-- The value of `sizeof(int)`. -/
  sizeof_int : Nat
  /-- True when the file is compiled with `__FreeBSD__` defined. -/
  FreeBSD : Bool
  CAP_READ : Nat
  CAP_WRITE : Nat
  CAP_CONNECT : Nat
  /-- The function `ntohs`, whose result depends on the byte order of the host. -/
  ntohs : Nat → Nat

/-- A C string: the characters before the terminating NUL. -/
abbrev CStr := List Char

/-! ## Data -/

/-- The type `struct in_addr`: the four bytes of an IPv4 address, in memory order. -/
structure in_addr where
  b0 : Nat
  b1 : Nat
  b2 : Nat
  b3 : Nat
deriving DecidableEq, Repr

/-- The bytes of a `struct in_addr`, as `memcpy` reads them. -/
def in_addr.bytes (a : in_addr) : List Nat := [a.b0, a.b1, a.b2, a.b3]

/-- The type `struct sockaddr_in`. The handler reads `ss` (a `sockaddr_storage`) and
`ifr.ifr_addr` (a `sockaddr`) through this view as well. -/
structure sockaddr_in where
  sin_len : Nat
  sin_family : Int
  sin_port : Nat
  sin_addr : in_addr
deriving DecidableEq, Repr

/-- The type `struct sockaddr_dl`, of which the handler reads `sdl_index` only. -/
structure sockaddr_dl where
  sdl_index : Nat
deriving DecidableEq, Repr

/-- One record of the ancillary chain, as `CMSG_FIRSTHDR` and `CMSG_NXTHDR`
walk it; `data` is `CMSG_DATA(cm)` seen as a `struct sockaddr_dl`. -/
structure cmsghdr where
  cmsg_level : Int
  cmsg_type : Int
  data : sockaddr_dl
deriving DecidableEq, Repr

/-- The type `struct iaddr`. -/
structure iaddr where
  len : Nat
  iabuf : List Nat
deriving DecidableEq, Repr

/-- The type `struct hardware`, as its bytes. -/
structure hardware where
  bytes : List Nat
deriving DecidableEq, Repr

/-- The type `struct ifreq`: the name asked about and the address answered. -/
structure ifreq where
  ifr_name : CStr
  ifr_addr : sockaddr_in
deriving DecidableEq, Repr

/-- The type `struct subnet`, of which the handler reads `shared_network` only. -/
structure subnet where
  shared_network : Nat
deriving DecidableEq, Repr

/-- A function pointer stored or passed by this file. -/
inductive fn_ptr where
  | NULL
  | udpsock_send_packet
  | udpsock_handler
deriving DecidableEq, Repr

/-- The type `struct interface_info`: the members `udpsock_handler` assigns. The other
members of the declaration keep the zero that `memset` gave them. -/
structure interface_info where
  shared_network : Nat
  primary_address : in_addr
  name : CStr
  wfdesc : Int
  ifp : Option ifreq
  index : Nat
  is_udpsock : Int
  send_packet : fn_ptr
deriving DecidableEq, Repr

/-- The type `struct udpsock`. -/
structure udpsock where
  sock : Int
deriving DecidableEq, Repr

/-- The type `struct protocol`, of which the handler reads `local` only; the
member is `loc` here, `local` being a reserved word. -/
structure protocol where
  loc : udpsock
deriving DecidableEq, Repr

/-! ## The world outside the file -/

/-- A datagram waiting on a descriptor, with what the kernel reports along
with it: the sender, `msg_controllen` after the call, and the ancillary
chain. -/
structure datagram where
  data : List Nat
  src : sockaddr_in
  msg_controllen : Nat
  control : List cmsghdr
deriving DecidableEq, Repr

/-- The answers of the operating system and of the rest of dhcpd. -/
structure World where
  /-- What `recvmsg` finds on a descriptor; `none` makes the call fail. -/
  pending : Int → Option datagram
  /-- The call `if_indextoname`: the name of an interface index, `none` for `NULL`. -/
  if_indextoname : Nat → Option CStr
  /-- The call `socket(domain, type, protocol)`. -/
  socket : Int → Int → Int → Int
  /-- The call `ioctl(fd, request, &ifr)`: the return code and `ifr.ifr_addr` after the
  call, given `ifr.ifr_name`. The code passes `sizeof(ifr)` as a fourth argument,
  which `ioctl` does not read. -/
  ioctl : Int → Int → CStr → Int × sockaddr_in
  /-- The call `find_subnet(addr)`, `none` for `NULL`. -/
  find_subnet : iaddr → Option subnet
  /-- The call `sendto(fd, buf, len, flags, to, tolen)`. -/
  sendto : Int → List Nat → Nat → Int → sockaddr_in → Nat → Int
  /-- The call `calloc(nmemb, size)`: the address of the zeroed block, `0` for `NULL`. -/
  calloc : Nat → Nat → Nat
  /-- The call `setsockopt(fd, level, optname, &value, optlen)`. -/
  setsockopt : Int → Int → Int → Int → Nat → Int
  /-- The call `bind(fd, &sin, len)`. -/
  bind : Int → sockaddr_in → Nat → Int
  /-- The call `cap_rights_limit(fd, &rights)`. -/
  cap_rights_limit : Int → List Nat → Int

/-- What the handler finds in its locals before it writes them. -/
structure Stack where
  packetbuf : List Nat
  ss : sockaddr_in
  ifname : CStr
  ifr_name : CStr
  from_iabuf : List Nat
  addr_iabuf : List Nat

/-- A call that leaves the file, with its arguments and, where the code looks
at it, its result. -/
inductive Event where
  | recvmsg (fd : Int) (iov_len : Nat) (controllen : Nat) (ret : Int)
  | log_warn (fmt : String) (args : List CStr)
  | log_warnx (fmt : String)
  | log_info (fmt : String) (addr : in_addr) (port : Nat)
  | fatal (msg : String)
  | if_indextoname (index : Nat) (ret : Option CStr)
  | socket (domain : Int) (type : Int) (proto : Int) (ret : Int)
  | ioctl (fd : Int) (request : Int) (ifr_name : CStr) (ret : Int) (ifr_addr : sockaddr_in)
  | close (fd : Int)
  | find_subnet (addr : iaddr) (ret : Option subnet)
  | do_packet (iface : interface_info) (packet : List Nat) (len : Int) (port : Nat)
      (from_ : iaddr) (hw : hardware)
  | sendto (fd : Int) (buf : List Nat) (len : Nat) (flags : Int) (to_ : sockaddr_in)
      (tolen : Nat) (ret : Int)
  | calloc (nmemb : Nat) (size : Nat) (ret : Nat)
  | setsockopt (fd : Int) (level : Int) (optname : Int) (value : Int) (optlen : Nat) (ret : Int)
  | bind (fd : Int) (sin : sockaddr_in) (len : Nat) (ret : Int)
  | add_protocol (name : String) (fd : Int) (handler : fn_ptr) (loc : Nat)
  | cap_rights_limit (fd : Int) (rights : List Nat) (ret : Int)
deriving DecidableEq, Repr

/-! ## Library calls with a fixed meaning -/

/-- The call `memcpy(dst, src, n)`: the first `n` bytes of `dst` become those of `src`. -/
def memcpy (dst src : List Nat) (n : Nat) : List Nat :=
  src.take n ++ dst.drop n

/-- The call `strlcpy(dst, src, dstsize)`: at most `dstsize - 1` characters of `src`,
then a NUL; nothing is written when `dstsize` is zero. -/
def strlcpy (dst src : CStr) (dstsize : Nat) : CStr :=
  if dstsize = 0 then dst else src.take (dstsize - 1)

/-- What `recvmsg` leaves behind: its return value, the packet buffer, the
sender, `msg_controllen` and the ancillary chain. -/
structure received where
  len : Int
  packetbuf : List Nat
  ss : sockaddr_in
  msg_controllen : Nat
  control : List cmsghdr
deriving DecidableEq, Repr

/-- The call `recvmsg(fd, &m, 0)` with one buffer of `iov_len` bytes: `-1` when nothing
can be received, otherwise the datagram cut to the buffer, its length after
the cut, and the metadata. -/
def recvmsg (w : World) (fd : Int) (stk : Stack) (iov_len controllen : Nat) : received :=
  match w.pending fd with
  | none => ⟨-1, stk.packetbuf, stk.ss, controllen, []⟩
  | some d =>
    ⟨((min d.data.length iov_len : Nat) : Int),
      memcpy stk.packetbuf d.data (min d.data.length iov_len),
      d.src, d.msg_controllen, d.control⟩

/-! ## `udpsock_handler` -/

/-- The body of the `for` loop over the ancillary chain: a record of level
`IPPROTO_IP` and type `IP_RECVIF` replaces `sdl`. -/
def scan_cmsgs (c : Consts) : List cmsghdr → Option sockaddr_dl → Option sockaddr_dl
  | [], sdl => sdl
  | cm :: rest, sdl =>
    if cm.cmsg_level = c.IPPROTO_IP ∧ cm.cmsg_type = c.IP_RECVIF then
      scan_cmsgs c rest (some cm.data)
    else
      scan_cmsgs c rest sdl

/-- The `for` loop with its guard `m.msg_controllen != 0 && cm`, started with
`sdl = NULL`. -/
def find_sdl (c : Consts) (m : received) : Option sockaddr_dl :=
  if m.msg_controllen = 0 then none else scan_cmsgs c m.control none

/-- The effect of `memset(&hw, 0, sizeof(hw))`. -/
def zero_hardware (c : Consts) : hardware :=
  ⟨List.replicate c.sizeof_hardware 0⟩

/-- The effect of `memset(&iface, 0, sizeof(iface))`. -/
def zero_interface_info : interface_info :=
  { shared_network := 0, primary_address := ⟨0, 0, 0, 0⟩, name := [], wfdesc := 0,
    ifp := none, index := 0, is_udpsock := 0, send_packet := fn_ptr.NULL }

/-- The function `udpsock_handler(protocol)`: the calls it makes, in order. -/
def udpsock_handler (c : Consts) (w : World) (stk : Stack) (p : protocol) : List Event :=
  let udpsock := p.loc
  let hw := zero_hardware c
  let iface := zero_interface_info
  let m := recvmsg w udpsock.sock stk 4095 256
  let t := [Event.recvmsg udpsock.sock 4095 256 m.len]
  if m.len = -1 then
    t ++ [Event.log_warn "receiving a DHCP message failed" []]
  else if m.ss.sin_family ≠ c.AF_INET then
    t ++ [Event.log_warnx "received DHCP message is not AF_INET"]
  else
    let sin4 := m.ss
    match find_sdl c m with
    | none => t ++ [Event.log_warnx "could not get the received interface by IP_RECVIF"]
    | some sdl =>
      let named := w.if_indextoname sdl.sdl_index
      let ifname := named.getD stk.ifname
      let t := t ++ [Event.if_indextoname sdl.sdl_index named]
      let sockio := w.socket c.AF_INET c.SOCK_DGRAM 0
      let t := t ++ [Event.socket c.AF_INET c.SOCK_DGRAM 0 sockio]
      if sockio = -1 then
        t ++ [Event.log_warn "socket creation failed" []]
      else
        let ifr_name := strlcpy stk.ifr_name ifname c.IFNAMSIZ
        let answer := w.ioctl sockio c.SIOCGIFADDR ifr_name
        let ifr : ifreq := ⟨ifr_name, answer.2⟩
        let t := t ++ [Event.ioctl sockio c.SIOCGIFADDR ifr_name answer.1 answer.2]
        if answer.1 = -1 then
          t ++ [Event.log_warn "Failed to get address for %s" [ifname], Event.close sockio]
        else
          let t := t ++ [Event.close sockio]
          if ifr.ifr_addr.sin_family ≠ c.AF_INET then
            t
          else
            let iface := { iface with is_udpsock := 1 }
            let iface := { iface with send_packet := fn_ptr.udpsock_send_packet }
            let iface := { iface with wfdesc := udpsock.sock }
            let iface := { iface with ifp := some ifr }
            let iface := { iface with index := sdl.sdl_index }
            let iface := { iface with primary_address := ifr.ifr_addr.sin_addr }
            let iface := { iface with name := strlcpy iface.name ifname c.sizeof_iface_name }
            let addr : iaddr := ⟨4, memcpy stk.addr_iabuf iface.primary_address.bytes 4⟩
            let found := w.find_subnet addr
            let t := t ++ [Event.find_subnet addr found]
            match found with
            | none => t
            | some subnet =>
              let iface := { iface with shared_network := subnet.shared_network }
              let from_ : iaddr := ⟨4, memcpy stk.from_iabuf sin4.sin_addr.bytes 4⟩
              t ++ [Event.do_packet iface m.packetbuf m.len sin4.sin_port from_ hw]

/-! ## `udpsock_startup` -/

/-- What `udpsock_startup` leaves: the calls it made, the `struct udpsock` it
allocated (`none` when `calloc` gave `NULL`), and whether it returned. It does
not return when it calls `fatal`. -/
structure startup_result where
  trace : List Event
  udpsock : Option udpsock
  returned : Bool
deriving DecidableEq, Repr

/-- Modelled from the spec: `fatal` (declared in `log.h`, defined outside the
sources at hand) terminates the process with a diagnostic, so nothing after it
runs. The record allocated so far is left as it is. -/
def fatal (t : List Event) (msg : String) (rec_ : Option udpsock) : startup_result :=
  ⟨t ++ [Event.fatal msg], rec_, false⟩

/-- The end of `udpsock_startup`, after the optional `__FreeBSD__` block:
`log_info` and `udpsock->sock = sock`. -/
def startup_finish (c : Consts) (server_port : Nat) (sin4 : sockaddr_in) (sock : Int)
    (t : List Event) : startup_result :=
  let t := t ++ [Event.log_info "Listening on %s:%d/udp." sin4.sin_addr (c.ntohs server_port)]
  ⟨t, some ⟨sock⟩, true⟩

/-- The function `udpsock_startup(bindaddr)`, with the global `server_port` as an argument. -/
def udpsock_startup (c : Consts) (w : World) (server_port : Nat) (bindaddr : in_addr) :
    startup_result :=
  let ptr := w.calloc 1 c.sizeof_udpsock
  let t := [Event.calloc 1 c.sizeof_udpsock ptr]
  if ptr = 0 then
    fatal t "could not create udpsock" none
  else
    let rec_ : udpsock := ⟨0⟩
    let sin4 : sockaddr_in := ⟨0, 0, 0, ⟨0, 0, 0, 0⟩⟩
    let sock := w.socket c.AF_INET c.SOCK_DGRAM c.IPPROTO_UDP
    let t := t ++ [Event.socket c.AF_INET c.SOCK_DGRAM c.IPPROTO_UDP sock]
    if sock = -1 then
      fatal t "creating a socket failed for udp" (some rec_)
    else
      let onoff : Int := 1
      let r := w.setsockopt sock c.IPPROTO_IP c.IP_RECVIF onoff c.sizeof_int
      let t := t ++ [Event.setsockopt sock c.IPPROTO_IP c.IP_RECVIF onoff c.sizeof_int r]
      if r ≠ 0 then
        fatal t "setsocketopt IP_RECVIF failed for udp" (some rec_)
      else
        let sin4 := { sin4 with sin_family := c.AF_INET }
        let sin4 := { sin4 with sin_len := c.sizeof_sockaddr_in }
        let sin4 := { sin4 with sin_addr := bindaddr }
        let sin4 := { sin4 with sin_port := server_port }
        let r := w.bind sock sin4 c.sizeof_sockaddr_in
        let t := t ++ [Event.bind sock sin4 c.sizeof_sockaddr_in r]
        if r ≠ 0 then
          fatal t "bind failed for udp" (some rec_)
        else
          let t := t ++ [Event.add_protocol "udp" sock fn_ptr.udpsock_handler ptr]
          if c.FreeBSD then
            let rights := [c.CAP_READ, c.CAP_WRITE, c.CAP_CONNECT]
            let r := w.cap_rights_limit sock rights
            let t := t ++ [Event.cap_rights_limit sock rights r]
            if r < 0 then
              fatal t "failed to cap_rights_limit on udp socket" (some rec_)
            else
              startup_finish c server_port sin4 sock t
          else
            startup_finish c server_port sin4 sock t

/-! ## `udpsock_send_packet` -/

/-- The function `udpsock_send_packet(interface, raw, len, from, to, hto)`: the value it
returns and the calls it makes. -/
def udpsock_send_packet (c : Consts) (w : World) (interface : interface_info)
    (raw : List Nat) (len : Nat) (_from : in_addr) (to_ : sockaddr_in)
    (_hto : Option hardware) : Int × List Event :=
  let r := w.sendto interface.wfdesc raw len 0 to_ c.sizeof_sockaddr_in
  (r, [Event.sendto interface.wfdesc raw len 0 to_ c.sizeof_sockaddr_in r])

/-! ## Reading a trace -/

/-- A call of the Packet Processor. -/
def Event.is_do_packet : Event → Bool
  | Event.do_packet _ _ _ _ _ _ => true
  | _ => false

/-- A call of the Subnet Locator. -/
def Event.is_find_subnet : Event → Bool
  | Event.find_subnet _ _ => true
  | _ => false

/-- A call of `socket`. -/
def Event.is_socket : Event → Bool
  | Event.socket _ _ _ _ => true
  | _ => false

/-- A call of `socket` that gave a descriptor. -/
def Event.is_opened : Event → Bool
  | Event.socket _ _ _ ret => decide (ret ≠ -1)
  | _ => false

/-- A call of `close`. -/
def Event.is_close : Event → Bool
  | Event.close _ => true
  | _ => false

/-- A message handed to the log. -/
def Event.is_log : Event → Bool
  | Event.log_warn _ _ => true
  | Event.log_warnx _ => true
  | Event.log_info _ _ _ => true
  | Event.fatal _ => true
  | _ => false

/-- A registration with the event multiplexer. -/
def Event.is_add_protocol : Event → Bool
  | Event.add_protocol _ _ _ _ => true
  | _ => false

/-- A call of `sendto`. -/
def Event.is_send : Event → Bool
  | Event.sendto _ _ _ _ _ _ _ => true
  | _ => false

/-- A call of `fatal`. -/
def Event.is_fatal : Event → Bool
  | Event.fatal _ => true
  | _ => false

/-- A call of the Subnet Locator or of the Packet Processor. -/
def Event.is_lookup_or_dispatch (e : Event) : Bool :=
  e.is_find_subnet || e.is_do_packet

/-- The record the scan is looking for: level `IPPROTO_IP`, type `IP_RECVIF`. -/
def is_recvif (c : Consts) (cm : cmsghdr) : Prop :=
  cm.cmsg_level = c.IPPROTO_IP ∧ cm.cmsg_type = c.IP_RECVIF

instance (c : Consts) (cm : cmsghdr) : Decidable (is_recvif c cm) := by
  unfold is_recvif; infer_instance

/-! ## Values along the paths of `udpsock_handler` -/

/-- What `recvmsg` left behind in this run of the handler. -/
def received_of (w : World) (stk : Stack) (p : protocol) : received :=
  recvmsg w p.loc.sock stk 4095 256

/-- The local `ifname` after `if_indextoname(sdl->sdl_index, ifname)`, whose
return value the handler does not look at. -/
def ifname_after (w : World) (stk : Stack) (sdl : sockaddr_dl) : CStr :=
  (w.if_indextoname sdl.sdl_index).getD stk.ifname

/-- The value of the local `sockio`. -/
def sockio_of (c : Consts) (w : World) : Int :=
  w.socket c.AF_INET c.SOCK_DGRAM 0

/-- The member `ifr.ifr_name` handed to `ioctl`. -/
def ifr_name_of (c : Consts) (w : World) (stk : Stack) (sdl : sockaddr_dl) : CStr :=
  strlcpy stk.ifr_name (ifname_after w stk sdl) c.IFNAMSIZ

/-- The answer of `ioctl(sockio, SIOCGIFADDR, &ifr)`. -/
def answer_of (c : Consts) (w : World) (stk : Stack) (sdl : sockaddr_dl) : Int × sockaddr_in :=
  w.ioctl (sockio_of c w) c.SIOCGIFADDR (ifr_name_of c w stk sdl)

/-- The local `addr` handed to `find_subnet`. -/
def addr_of (c : Consts) (w : World) (stk : Stack) (sdl : sockaddr_dl) : iaddr :=
  ⟨4, memcpy stk.addr_iabuf (answer_of c w stk sdl).2.sin_addr.bytes 4⟩

/-- The local `iface` handed to `do_packet`. -/
def iface_of (c : Consts) (w : World) (stk : Stack) (p : protocol) (sdl : sockaddr_dl)
    (sn : subnet) : interface_info :=
  { shared_network := sn.shared_network
    primary_address := (answer_of c w stk sdl).2.sin_addr
    name := strlcpy [] (ifname_after w stk sdl) c.sizeof_iface_name
    wfdesc := p.loc.sock
    ifp := some ⟨ifr_name_of c w stk sdl, (answer_of c w stk sdl).2⟩
    index := sdl.sdl_index
    is_udpsock := 1
    send_packet := fn_ptr.udpsock_send_packet }

/-- The local `from` handed to `do_packet`. -/
def from_of (stk : Stack) (m : received) : iaddr :=
  ⟨4, memcpy stk.from_iabuf m.ss.sin_addr.bytes 4⟩

/-- The calls up to and including `socket`, made once the scan has found a
record. -/
def calls_to_socket (c : Consts) (w : World) (stk : Stack) (p : protocol)
    (sdl : sockaddr_dl) : List Event :=
  [Event.recvmsg p.loc.sock 4095 256 (received_of w stk p).len,
   Event.if_indextoname sdl.sdl_index (w.if_indextoname sdl.sdl_index),
   Event.socket c.AF_INET c.SOCK_DGRAM 0 (sockio_of c w)]

/-- The `ioctl` call. -/
def call_ioctl (c : Consts) (w : World) (stk : Stack) (sdl : sockaddr_dl) : Event :=
  Event.ioctl (sockio_of c w) c.SIOCGIFADDR (ifr_name_of c w stk sdl)
    (answer_of c w stk sdl).1 (answer_of c w stk sdl).2

/-! ## Values along the path of `udpsock_startup` -/

/-- The address `calloc` gives `udpsock_startup`. -/
def startup_ptr (c : Consts) (w : World) : Nat :=
  w.calloc 1 c.sizeof_udpsock

/-- The descriptor `socket` gives `udpsock_startup`. -/
def startup_sock (c : Consts) (w : World) : Int :=
  w.socket c.AF_INET c.SOCK_DGRAM c.IPPROTO_UDP

/-- The local `sin4` handed to `bind`: `bindaddr` and `server_port`. -/
def startup_sin4 (c : Consts) (server_port : Nat) (bindaddr : in_addr) : sockaddr_in :=
  { sin_len := c.sizeof_sockaddr_in, sin_family := c.AF_INET, sin_port := server_port,
    sin_addr := bindaddr }

/-- The return code of the `setsockopt` call. -/
def startup_opt (c : Consts) (w : World) : Int :=
  w.setsockopt (startup_sock c w) c.IPPROTO_IP c.IP_RECVIF 1 c.sizeof_int

/-- The return code of the `bind` call. -/
def startup_bind (c : Consts) (w : World) (server_port : Nat) (bindaddr : in_addr) : Int :=
  w.bind (startup_sock c w) (startup_sin4 c server_port bindaddr) c.sizeof_sockaddr_in

/-- The return code of the `cap_rights_limit` call. -/
def startup_limit (c : Consts) (w : World) : Int :=
  w.cap_rights_limit (startup_sock c w) [c.CAP_READ, c.CAP_WRITE, c.CAP_CONNECT]

/-- The calls of `udpsock_startup` up to and including `bind`. -/
def calls_to_bind (c : Consts) (w : World) (server_port : Nat) (bindaddr : in_addr) :
    List Event :=
  [Event.calloc 1 c.sizeof_udpsock (startup_ptr c w),
   Event.socket c.AF_INET c.SOCK_DGRAM c.IPPROTO_UDP (startup_sock c w),
   Event.setsockopt (startup_sock c w) c.IPPROTO_IP c.IP_RECVIF 1 c.sizeof_int
     (startup_opt c w),
   Event.bind (startup_sock c w) (startup_sin4 c server_port bindaddr) c.sizeof_sockaddr_in
     (startup_bind c w server_port bindaddr)]

/-! ## Concrete runs

The scenario of the specification: an endpoint on descriptor 3, an 8-byte
datagram from `10.0.0.55:68` that arrived on interface 1, named `eth0`, whose
address `10.0.0.1` lies in the configured subnet `10.0.0.0/24`. -/

/-- Header values of a BSD system. -/
def bsd : Consts :=
  { AF_INET := 2, SOCK_DGRAM := 2, IPPROTO_UDP := 17, IPPROTO_IP := 0, IP_RECVIF := 20,
    SIOCGIFADDR := 3223349537, IFNAMSIZ := 16, sizeof_iface_name := 16, sizeof_hardware := 18,
    sizeof_sockaddr_in := 16, sizeof_udpsock := 4, sizeof_int := 4, FreeBSD := true,
    CAP_READ := 1, CAP_WRITE := 2, CAP_CONNECT := 3,
    ntohs := fun x => x % 256 * 256 + x / 256 % 256 }

/-- The name `eth0`. -/
def eth0 : CStr := ['e', 't', 'h', '0']

/-- The sender, `10.0.0.55:68`. -/
def client : sockaddr_in := ⟨16, 2, 68, ⟨10, 0, 0, 55⟩⟩

/-- The ancillary record that names interface 1. -/
def recvif_1 : cmsghdr := ⟨0, 20, ⟨1⟩⟩

/-- An ancillary record of another kind. -/
def other_cmsg : cmsghdr := ⟨65535, 2, ⟨0⟩⟩

/-- The forged 8-byte datagram. -/
def forged : datagram := ⟨[1, 2, 3, 4, 5, 6, 7, 8], client, 32, [recvif_1]⟩

/-- The world of the scenario. -/
def lan : World :=
  { pending := fun fd => if fd = 3 then some forged else none
    if_indextoname := fun i => if i = 1 then some eth0 else none
    socket := fun _ _ _ => 4
    ioctl := fun _ _ nm =>
      if nm = eth0 then (0, ⟨16, 2, 0, ⟨10, 0, 0, 1⟩⟩) else (-1, ⟨0, 0, 0, ⟨0, 0, 0, 0⟩⟩)
    find_subnet := fun a =>
      if a.len = 4 ∧ a.iabuf.take 3 = [10, 0, 0] then some ⟨1000⟩ else none
    sendto := fun _ _ len _ _ _ => len
    calloc := fun _ _ => 4096
    setsockopt := fun _ _ _ _ _ => 0
    bind := fun _ _ _ => 0
    cap_rights_limit := fun _ _ => 0 }

/-- Locals of the handler before it runs. -/
def stack0 : Stack :=
  { packetbuf := List.replicate 16 170, ss := ⟨0, 0, 0, ⟨0, 0, 0, 0⟩⟩, ifname := [],
    ifr_name := [], from_iabuf := List.replicate 16 170, addr_iabuf := List.replicate 16 170 }

/-- The endpoint on descriptor 3. -/
def endpoint : protocol := ⟨⟨3⟩⟩

/-- A world in which the chain holds no record of the receiving interface. -/
def lan_bare : World :=
  { lan with pending := fun fd =>
      if fd = 3 then some { forged with control := [other_cmsg] } else none }

/-- A world in which `eth0` has the address `192.168.1.1`, outside every
configured subnet. -/
def lan_elsewhere : World :=
  { lan with ioctl := fun _ _ nm =>
      if nm = eth0 then (0, ⟨16, 2, 0, ⟨192, 168, 1, 1⟩⟩) else (-1, ⟨0, 0, 0, ⟨0, 0, 0, 0⟩⟩) }

/-- A world without a free descriptor: `socket` fails. -/
def lan_no_fd : World :=
  { lan with socket := fun _ _ _ => -1 }

/-- A world in which the sender is of family 28 (`AF_INET6`). -/
def lan_inet6 : World :=
  { lan with pending := fun fd =>
      if fd = 3 then some { forged with src := ⟨28, 28, 546, ⟨0, 0, 0, 0⟩⟩ } else none }

/-- A world in which the chain names interface 2, then something else, then
interface 1. -/
def lan_twice : World :=
  { lan with pending := fun fd =>
      if fd = 3 then some { forged with control := [⟨0, 20, ⟨2⟩⟩, other_cmsg, recvif_1] }
      else none }

/-- A world in which `cap_rights_limit` fails. -/
def lan_no_limit : World :=
  { lan with cap_rights_limit := fun _ _ => -1 }

/-- A world in which `bind` fails: the address is in use. -/
def lan_in_use : World :=
  { lan with bind := fun _ _ _ => -1 }

/-- The address `0.0.0.0`. -/
def any_addr : in_addr := ⟨0, 0, 0, 0⟩

/-- Port 67 in network byte order, as a little-endian host reads it. -/
def port_67 : Nat := 17152

/-- The local `addr` of the handler when `eth0` has the address `192.168.1.1`. -/
def addr_elsewhere : iaddr :=
  ⟨4, [192, 168, 1, 1, 170, 170, 170, 170, 170, 170, 170, 170, 170, 170, 170, 170]⟩

/-- The interface context of the scenario. -/
def iface_eth0 : interface_info :=
  { shared_network := 1000, primary_address := ⟨10, 0, 0, 1⟩, name := eth0, wfdesc := 3,
    ifp := some ⟨eth0, ⟨16, 2, 0, ⟨10, 0, 0, 1⟩⟩⟩, index := 1, is_udpsock := 1,
    send_packet := fn_ptr.udpsock_send_packet }

/-- The call of `do_packet` of the scenario. -/
def dispatch_eth0 : Event :=
  Event.do_packet iface_eth0
    [1, 2, 3, 4, 5, 6, 7, 8, 170, 170, 170, 170, 170, 170, 170, 170] 8 68
    ⟨4, [10, 0, 0, 55, 170, 170, 170, 170, 170, 170, 170, 170, 170, 170, 170, 170]⟩
    ⟨List.replicate 18 0⟩

/-! # Theorems -/

/-! ## The scan of the ancillary chain -/

/-- A chain without a record of the receiving interface leaves `sdl` as it was. -/
theorem scan_cmsgs_no_match (c : Consts) (l : List cmsghdr) (s : Option sockaddr_dl)
    (h : ∀ cm ∈ l, ¬ is_recvif c cm) : scan_cmsgs c l s = s := by
  induction l generalizing s with
  | nil => rfl
  | cons cm rest ih =>
    have h1 : ¬ (cm.cmsg_level = c.IPPROTO_IP ∧ cm.cmsg_type = c.IP_RECVIF) :=
      h cm (List.mem_cons_self _ _)
    simp only [scan_cmsgs, h1, if_false]
    exact ih s (fun x hx => h x (List.mem_cons_of_mem _ hx))

/-- The scan ends with the data of the last record of the receiving interface. -/
theorem scan_cmsgs_last (c : Consts) (pre post : List cmsghdr) (cm : cmsghdr)
    (s : Option sockaddr_dl) (hcm : is_recvif c cm) (hpost : ∀ x ∈ post, ¬ is_recvif c x) :
    scan_cmsgs c (pre ++ cm :: post) s = some cm.data := by
  induction pre generalizing s with
  | nil =>
    have h1 : cm.cmsg_level = c.IPPROTO_IP ∧ cm.cmsg_type = c.IP_RECVIF := hcm
    simp only [List.nil_append, scan_cmsgs, h1, and_self, if_true]
    exact scan_cmsgs_no_match c post _ hpost
  | cons x rest ih =>
    simp only [List.cons_append, scan_cmsgs]
    split
    · exact ih _
    · exact ih _

/-- A chain with a record of the receiving interface makes the scan find one. -/
theorem scan_cmsgs_some_of_match (c : Consts) (l : List cmsghdr) (s : Option sockaddr_dl)
    (h : ∃ cm ∈ l, is_recvif c cm) : ∃ sdl, scan_cmsgs c l s = some sdl := by
  induction l generalizing s with
  | nil =>
    obtain ⟨cm, hmem, _⟩ := h
    cases hmem
  | cons x rest ih =>
    simp only [scan_cmsgs]
    by_cases hrest : ∃ y ∈ rest, is_recvif c y
    · split
      · exact ih _ hrest
      · exact ih _ hrest
    · obtain ⟨cm, hmem, hcm⟩ := h
      rcases List.mem_cons.mp hmem with rfl | hin
      · have h1 : cm.cmsg_level = c.IPPROTO_IP ∧ cm.cmsg_type = c.IP_RECVIF := hcm
        simp only [h1, and_self, if_true]
        refine ⟨cm.data, ?_⟩
        apply scan_cmsgs_no_match
        intro y hy hyc
        exact hrest ⟨y, hy, hyc⟩
      · exact absurd ⟨cm, hin, hcm⟩ hrest

/-- The loop leaves `sdl` at `NULL` exactly when `msg_controllen` is zero or the
chain holds no record of the receiving interface. -/
theorem find_sdl_none_iff (c : Consts) (m : received) :
    find_sdl c m = none ↔ (m.msg_controllen = 0 ∨ ∀ cm ∈ m.control, ¬ is_recvif c cm) := by
  unfold find_sdl
  constructor
  · intro h
    by_cases h0 : m.msg_controllen = 0
    · exact Or.inl h0
    · right
      intro cm hmem hcm
      rw [if_neg h0] at h
      obtain ⟨sdl, hs⟩ := scan_cmsgs_some_of_match c m.control none ⟨cm, hmem, hcm⟩
      rw [hs] at h
      cases h
  · intro h
    rcases h with h0 | hno
    · rw [if_pos h0]
    · split
      · rfl
      · exact scan_cmsgs_no_match c m.control none hno

/-! ## The receive call -/

/-- What `recvmsg` leaves behind when a datagram is waiting. -/
theorem recvmsg_some (w : World) (fd : Int) (stk : Stack) (n k : Nat) (d : datagram)
    (h : w.pending fd = some d) :
    recvmsg w fd stk n k =
      ⟨((min d.data.length n : Nat) : Int), memcpy stk.packetbuf d.data (min d.data.length n),
        d.src, d.msg_controllen, d.control⟩ := by
  simp only [recvmsg, h]

/-- A successful `recvmsg` does not return `-1`. -/
theorem recvmsg_len_ne (w : World) (fd : Int) (stk : Stack) (n k : Nat) (d : datagram)
    (h : w.pending fd = some d) : (recvmsg w fd stk n k).len ≠ -1 := by
  rw [recvmsg_some w fd stk n k d h]
  simp only [ne_eq]
  omega

/-- A `recvmsg` that did not return `-1` found a datagram. -/
theorem received_of_some (w : World) (stk : Stack) (p : protocol)
    (h : (received_of w stk p).len ≠ -1) : ∃ d, w.pending p.loc.sock = some d := by
  cases hp : w.pending p.loc.sock with
  | none =>
    exfalso
    apply h
    simp only [received_of, recvmsg, hp]
  | some d => exact ⟨d, rfl⟩

/-- A string shorter than the destination is copied whole. -/
theorem strlcpy_fits (dst src : CStr) (n : Nat) (h : src.length < n) :
    strlcpy dst src n = src := by
  unfold strlcpy
  have hn : n ≠ 0 := by omega
  rw [if_neg hn]
  exact List.take_of_length_le (by omega)

/-! ## The paths through `udpsock_handler` -/

/-- The eight paths through `udpsock_handler`, each with the condition that
selects it and the calls made on it. -/
theorem udpsock_handler_paths (c : Consts) (w : World) (stk : Stack) (p : protocol) :
    ((received_of w stk p).len = -1 ∧
      udpsock_handler c w stk p = [Event.recvmsg p.loc.sock 4095 256 (received_of w stk p).len,
           Event.log_warn "receiving a DHCP message failed" []]) ∨
    ((received_of w stk p).len ≠ -1 ∧ (received_of w stk p).ss.sin_family ≠ c.AF_INET ∧
      udpsock_handler c w stk p = [Event.recvmsg p.loc.sock 4095 256 (received_of w stk p).len,
           Event.log_warnx "received DHCP message is not AF_INET"]) ∨
    ((received_of w stk p).len ≠ -1 ∧ (received_of w stk p).ss.sin_family = c.AF_INET ∧ find_sdl c (received_of w stk p) = none ∧
      udpsock_handler c w stk p = [Event.recvmsg p.loc.sock 4095 256 (received_of w stk p).len,
           Event.log_warnx "could not get the received interface by IP_RECVIF"]) ∨
    ∃ sdl, (received_of w stk p).len ≠ -1 ∧ (received_of w stk p).ss.sin_family = c.AF_INET ∧ find_sdl c (received_of w stk p) = some sdl ∧
      ((sockio_of c w = -1 ∧
          udpsock_handler c w stk p = calls_to_socket c w stk p sdl ++ [Event.log_warn "socket creation failed" []]) ∨
       (sockio_of c w ≠ -1 ∧ (answer_of c w stk sdl).1 = -1 ∧
          udpsock_handler c w stk p = calls_to_socket c w stk p sdl ++
            [call_ioctl c w stk sdl,
             Event.log_warn "Failed to get address for %s" [ifname_after w stk sdl],
             Event.close (sockio_of c w)]) ∨
       (sockio_of c w ≠ -1 ∧ (answer_of c w stk sdl).1 ≠ -1 ∧
          (answer_of c w stk sdl).2.sin_family ≠ c.AF_INET ∧
          udpsock_handler c w stk p = calls_to_socket c w stk p sdl ++
            [call_ioctl c w stk sdl, Event.close (sockio_of c w)]) ∨
       (sockio_of c w ≠ -1 ∧ (answer_of c w stk sdl).1 ≠ -1 ∧
          (answer_of c w stk sdl).2.sin_family = c.AF_INET ∧
          w.find_subnet (addr_of c w stk sdl) = none ∧
          udpsock_handler c w stk p = calls_to_socket c w stk p sdl ++
            [call_ioctl c w stk sdl, Event.close (sockio_of c w),
             Event.find_subnet (addr_of c w stk sdl) none]) ∨
       (∃ sn, sockio_of c w ≠ -1 ∧ (answer_of c w stk sdl).1 ≠ -1 ∧
          (answer_of c w stk sdl).2.sin_family = c.AF_INET ∧
          w.find_subnet (addr_of c w stk sdl) = some sn ∧
          udpsock_handler c w stk p = calls_to_socket c w stk p sdl ++
            [call_ioctl c w stk sdl, Event.close (sockio_of c w),
             Event.find_subnet (addr_of c w stk sdl) (some sn),
             Event.do_packet (iface_of c w stk p sdl sn) (received_of w stk p).packetbuf (received_of w stk p).len (received_of w stk p).ss.sin_port
               (from_of stk (received_of w stk p)) (zero_hardware c)])) := by
  by_cases hlen : (received_of w stk p).len = -1
  · left
    refine ⟨hlen, ?_⟩
    unfold udpsock_handler
    simp only [received_of] at hlen
    simp only [hlen, if_true, received_of, List.singleton_append]
  right
  by_cases hfam : (received_of w stk p).ss.sin_family = c.AF_INET
  swap
  · left
    refine ⟨hlen, hfam, ?_⟩
    unfold udpsock_handler
    simp only [received_of] at hlen hfam
    simp only [hlen, if_false, ne_eq, hfam, not_false_eq_true, if_true, received_of, List.singleton_append]
  right
  cases hsdl : find_sdl c (received_of w stk p) with
  | none =>
    left
    refine ⟨hlen, hfam, rfl, ?_⟩
    unfold udpsock_handler
    simp only [received_of] at hlen hfam hsdl
    simp only [hlen, if_false, ne_eq, hfam, not_true_eq_false, hsdl, received_of, List.singleton_append]
  | some sdl =>
    right
    refine ⟨sdl, hlen, hfam, rfl, ?_⟩
    simp only [received_of] at hlen hfam hsdl
    by_cases hs : sockio_of c w = -1
    · left
      refine ⟨hs, ?_⟩
      unfold udpsock_handler
      simp only [sockio_of] at hs
      simp only [hlen, if_false, ne_eq, hfam, not_true_eq_false, hsdl, hs, if_true,
        calls_to_socket, sockio_of, received_of, List.singleton_append, List.cons_append, List.nil_append]
    right
    by_cases hi : (answer_of c w stk sdl).1 = -1
    · left
      refine ⟨hs, hi, ?_⟩
      unfold udpsock_handler
      simp only [sockio_of, answer_of, ifr_name_of, ifname_after] at hs hi
      simp only [hlen, if_false, ne_eq, hfam, not_true_eq_false, hsdl, hs, hi, if_true,
        calls_to_socket, call_ioctl, sockio_of, answer_of, ifr_name_of, ifname_after,
        received_of, List.singleton_append, List.cons_append, List.nil_append]
    right
    by_cases hf : (answer_of c w stk sdl).2.sin_family = c.AF_INET
    swap
    · left
      refine ⟨hs, hi, hf, ?_⟩
      unfold udpsock_handler
      simp only [sockio_of, answer_of, ifr_name_of, ifname_after] at hs hi hf
      simp only [hlen, if_false, ne_eq, hfam, not_true_eq_false, hsdl, hs, hi, hf,
        not_false_eq_true, if_true,
        calls_to_socket, call_ioctl, sockio_of, answer_of, ifr_name_of, ifname_after,
        received_of, List.singleton_append, List.cons_append, List.nil_append]
    right
    cases hsn : w.find_subnet (addr_of c w stk sdl) with
    | none =>
      left
      refine ⟨hs, hi, hf, rfl, ?_⟩
      unfold udpsock_handler
      simp only [sockio_of, answer_of, ifr_name_of, ifname_after, addr_of] at hs hi hf hsn
      simp only [hlen, if_false, ne_eq, hfam, not_true_eq_false, hsdl, hs, hi, hf, hsn,
        calls_to_socket, call_ioctl, sockio_of, answer_of, ifr_name_of, ifname_after, addr_of,
        received_of, List.singleton_append, List.cons_append, List.nil_append]
    | some sn =>
      right
      refine ⟨sn, hs, hi, hf, rfl, ?_⟩
      unfold udpsock_handler
      simp only [sockio_of, answer_of, ifr_name_of, ifname_after, addr_of] at hs hi hf hsn
      simp only [hlen, if_false, ne_eq, hfam, not_true_eq_false, hsdl, hs, hi, hf, hsn,
        calls_to_socket, call_ioctl, sockio_of, answer_of, ifr_name_of, ifname_after, addr_of,
        iface_of, from_of, zero_interface_info,
        received_of, List.singleton_append, List.cons_append, List.nil_append]

/-! ## Order of calls -/

/-- The calls before the first one that satisfies `q` are among those before any
one that does. -/
theorem takeWhile_sublist_of_stop (q : Event → Bool) (pre post : List Event) (e : Event)
    (he : q e = true) : ((pre ++ e :: post).takeWhile (fun x => !q x)).Sublist pre := by
  induction pre with
  | nil => simp [List.takeWhile, he]
  | cons x rest ih =>
    simp only [List.cons_append, List.takeWhile]
    cases hx : !q x with
    | true => exact List.Sublist.cons₂ x ih
    | false => exact List.nil_sublist _

/-- When the calls before the first one that satisfies `q` already hold all `n`
calls that satisfy `r`, so do the calls before any one that satisfies `q`. -/
theorem countP_before_stop (q r : Event → Bool) (t pre post : List Event) (e : Event)
    (n : Nat) (ht : t = pre ++ e :: post) (he : q e = true)
    (hfront : (t.takeWhile (fun x => !q x)).countP r = n) (hall : t.countP r = n) :
    pre.countP r = n := by
  have h1 : (t.takeWhile (fun x => !q x)).countP r ≤ pre.countP r := by
    rw [ht]
    exact (takeWhile_sublist_of_stop q pre post e he).countP_le _
  have h2 : pre.countP r ≤ t.countP r := by
    rw [ht]
    exact (List.sublist_append_left pre (e :: post)).countP_le _
  omega

/-- The calls of `close`, counted on every path: as many `close` as successful
`socket`, at most one, all of them before the first call of `find_subnet` or
`do_packet`, and each `close` on the descriptor `socket` gave. -/
theorem udpsock_handler_close_counts (c : Consts) (w : World) (stk : Stack) (p : protocol) :
    (udpsock_handler c w stk p).countP Event.is_close =
      (udpsock_handler c w stk p).countP Event.is_opened ∧
    (udpsock_handler c w stk p).countP Event.is_close ≤ 1 ∧
    ((udpsock_handler c w stk p).takeWhile
        (fun x => !Event.is_lookup_or_dispatch x)).countP Event.is_close =
      (udpsock_handler c w stk p).countP Event.is_opened ∧
    (∀ fd, Event.close fd ∈ udpsock_handler c w stk p →
      fd = w.socket c.AF_INET c.SOCK_DGRAM 0 ∧ fd ≠ -1 ∧
      Event.socket c.AF_INET c.SOCK_DGRAM 0 fd ∈ udpsock_handler c w stk p) := by
  rcases udpsock_handler_paths c w stk p with
    ⟨_, ht⟩ | ⟨_, _, ht⟩ | ⟨_, _, _, ht⟩ | ⟨sdl, _, _, _, hp⟩
  · rw [ht]
    simp [List.countP_cons, List.takeWhile, Event.is_close, Event.is_opened,
      Event.is_lookup_or_dispatch, Event.is_find_subnet, Event.is_do_packet]
  · rw [ht]
    simp [List.countP_cons, List.takeWhile, Event.is_close, Event.is_opened,
      Event.is_lookup_or_dispatch, Event.is_find_subnet, Event.is_do_packet]
  · rw [ht]
    simp [List.countP_cons, List.takeWhile, Event.is_close, Event.is_opened,
      Event.is_lookup_or_dispatch, Event.is_find_subnet, Event.is_do_packet]
  · rcases hp with ⟨hs, ht⟩ | ⟨hs, _, ht⟩ | ⟨hs, _, _, ht⟩ | ⟨hs, _, _, _, ht⟩ |
      ⟨sn, hs, _, _, _, ht⟩
    all_goals
      rw [ht]
      simp only [sockio_of] at hs
      simp [calls_to_socket, call_ioctl, List.countP_cons, List.takeWhile, Event.is_close,
        Event.is_opened, Event.is_lookup_or_dispatch, Event.is_find_subnet,
        Event.is_do_packet, hs, sockio_of]

/-! ## The claims about `udpsock_handler` -/

/-- C1: when the receive succeeds and the ancillary chain holds no record of
level `IPPROTO_IP` and type `IP_RECVIF` (or `msg_controllen` is zero), the
handler makes no call of `do_packet`, of `socket` or of `find_subnet`. -/
theorem handler_drops_without_recvif (c : Consts) (w : World) (stk : Stack) (p : protocol)
    (d : datagram) (hrecv : w.pending p.loc.sock = some d)
    (hnone : d.msg_controllen = 0 ∨ ∀ cm ∈ d.control, ¬ is_recvif c cm) :
    (udpsock_handler c w stk p).countP Event.is_do_packet = 0 ∧
    (udpsock_handler c w stk p).countP Event.is_socket = 0 ∧
    (udpsock_handler c w stk p).countP Event.is_find_subnet = 0 := by
  have hlen := recvmsg_len_ne w p.loc.sock stk 4095 256 d hrecv
  have hsdl : find_sdl c (recvmsg w p.loc.sock stk 4095 256) = none := by
    rw [find_sdl_none_iff, recvmsg_some w _ stk _ _ d hrecv]
    exact hnone
  unfold udpsock_handler
  simp only [hlen, hsdl, if_false]
  split <;> simp [List.countP_cons, Event.is_do_packet, Event.is_socket, Event.is_find_subnet]

/-- Witness for C1: a datagram whose chain holds one record, of another kind. -/
theorem handler_drops_without_recvif_witness :
    lan_bare.pending endpoint.loc.sock = some { forged with control := [other_cmsg] } ∧
    (udpsock_handler bsd lan_bare stack0 endpoint).countP Event.is_do_packet = 0 ∧
    (udpsock_handler bsd lan_bare stack0 endpoint).countP Event.is_socket = 0 ∧
    (udpsock_handler bsd lan_bare stack0 endpoint).countP Event.is_find_subnet = 0 :=
  ⟨by decide,
    handler_drops_without_recvif bsd lan_bare stack0 endpoint
      { forged with control := [other_cmsg] } (by decide) (Or.inr (by decide))⟩

/-- C2: in a run in which `find_subnet` was asked and answered `NULL`, the
handler makes no call of `do_packet`; the address it asked about has length
4. -/
theorem handler_drops_unknown_subnet (c : Consts) (w : World) (stk : Stack) (p : protocol)
    (addr : iaddr) (h : Event.find_subnet addr none ∈ udpsock_handler c w stk p) :
    (udpsock_handler c w stk p).countP Event.is_do_packet = 0 ∧ addr.len = 4 := by
  rcases udpsock_handler_paths c w stk p with
    ⟨_, ht⟩ | ⟨_, _, ht⟩ | ⟨_, _, _, ht⟩ | ⟨sdl, _, _, _, hp⟩
  · rw [ht] at h; simp at h
  · rw [ht] at h; simp at h
  · rw [ht] at h; simp at h
  · rcases hp with ⟨_, ht⟩ | ⟨_, _, ht⟩ | ⟨_, _, _, ht⟩ | ⟨_, _, _, _, ht⟩ |
      ⟨sn, _, _, _, _, ht⟩
    · rw [ht] at h; simp [calls_to_socket, call_ioctl] at h
    · rw [ht] at h; simp [calls_to_socket, call_ioctl] at h
    · rw [ht] at h; simp [calls_to_socket, call_ioctl] at h
    · rw [ht] at h ⊢
      simp only [calls_to_socket, call_ioctl, List.cons_append, List.nil_append, List.mem_cons,
        List.mem_singleton, List.not_mem_nil, or_false, reduceCtorEq, false_or,
        Event.find_subnet.injEq, and_true] at h
      refine ⟨by simp [calls_to_socket, call_ioctl, List.countP_cons, Event.is_do_packet], ?_⟩
      rw [h]
      rfl
    · rw [ht] at h; simp [calls_to_socket, call_ioctl] at h

/-- Witness for C2: `eth0` has the address `192.168.1.1`, which no subnet holds. -/
theorem handler_drops_unknown_subnet_witness :
    Event.find_subnet addr_elsewhere none ∈ udpsock_handler bsd lan_elsewhere stack0 endpoint ∧
    (udpsock_handler bsd lan_elsewhere stack0 endpoint).countP Event.is_do_packet = 0 ∧
    addr_elsewhere.len = 4 :=
  ⟨by decide,
    handler_drops_unknown_subnet bsd lan_elsewhere stack0 endpoint addr_elsewhere (by decide)⟩

/-- C3: in a run in which `socket` gave `-1`, or `ioctl` gave `-1`, or the
address `ioctl` filled in is not of family `AF_INET`, the handler makes no call
of `find_subnet` and no call of `do_packet`. -/
theorem handler_drops_unresolved (c : Consts) (w : World) (stk : Stack) (p : protocol)
    (h : (∃ dm ty pr, Event.socket dm ty pr (-1) ∈ udpsock_handler c w stk p) ∨
         (∃ fd rq nm a, Event.ioctl fd rq nm (-1) a ∈ udpsock_handler c w stk p) ∨
         (∃ fd rq nm ret a, Event.ioctl fd rq nm ret a ∈ udpsock_handler c w stk p ∧
            a.sin_family ≠ c.AF_INET)) :
    (udpsock_handler c w stk p).countP Event.is_find_subnet = 0 ∧
    (udpsock_handler c w stk p).countP Event.is_do_packet = 0 := by
  rcases udpsock_handler_paths c w stk p with
    ⟨_, ht⟩ | ⟨_, _, ht⟩ | ⟨_, _, _, ht⟩ | ⟨sdl, _, _, _, hp⟩
  · rw [ht]; simp [List.countP_cons, Event.is_do_packet, Event.is_find_subnet]
  · rw [ht]; simp [List.countP_cons, Event.is_do_packet, Event.is_find_subnet]
  · rw [ht]; simp [List.countP_cons, Event.is_do_packet, Event.is_find_subnet]
  · rcases hp with ⟨_, ht⟩ | ⟨_, _, ht⟩ | ⟨_, _, _, ht⟩ | ⟨hs, hi, hf, _, ht⟩ |
      ⟨sn, hs, hi, hf, _, ht⟩
    · rw [ht]
      simp [calls_to_socket, call_ioctl, List.countP_cons, Event.is_do_packet,
        Event.is_find_subnet]
    · rw [ht]
      simp [calls_to_socket, call_ioctl, List.countP_cons, Event.is_do_packet,
        Event.is_find_subnet]
    · rw [ht]
      simp [calls_to_socket, call_ioctl, List.countP_cons, Event.is_do_packet,
        Event.is_find_subnet]
    · exfalso
      rw [ht] at h
      simp only [calls_to_socket, call_ioctl, List.cons_append, List.nil_append, List.mem_cons,
        List.mem_singleton, List.not_mem_nil, or_false, reduceCtorEq, false_or, or_false,
        Event.socket.injEq, Event.ioctl.injEq, exists_false, false_and, and_false] at h
      rcases h with ⟨dm, ty, pr, _, _, _, h1⟩ | ⟨fd, rq, nm, a, _, _, _, h1, _⟩ |
        ⟨fd, rq, nm, ret, a, ⟨_, _, _, _, h1⟩, h2⟩
      · exact hs h1.symm
      · exact hi h1.symm
      · rw [h1] at h2; exact h2 hf
    · exfalso
      rw [ht] at h
      simp only [calls_to_socket, call_ioctl, List.cons_append, List.nil_append, List.mem_cons,
        List.mem_singleton, List.not_mem_nil, or_false, reduceCtorEq, false_or, or_false,
        Event.socket.injEq, Event.ioctl.injEq, exists_false, false_and, and_false] at h
      rcases h with ⟨dm, ty, pr, _, _, _, h1⟩ | ⟨fd, rq, nm, a, _, _, _, h1, _⟩ |
        ⟨fd, rq, nm, ret, a, ⟨_, _, _, _, h1⟩, h2⟩
      · exact hs h1.symm
      · exact hi h1.symm
      · rw [h1] at h2; exact h2 hf

/-- Witness for C3: `socket` fails. -/
theorem handler_drops_unresolved_witness :
    Event.socket 2 2 0 (-1) ∈ udpsock_handler bsd lan_no_fd stack0 endpoint ∧
    (udpsock_handler bsd lan_no_fd stack0 endpoint).countP Event.is_find_subnet = 0 ∧
    (udpsock_handler bsd lan_no_fd stack0 endpoint).countP Event.is_do_packet = 0 :=
  ⟨by decide,
    handler_drops_unresolved bsd lan_no_fd stack0 endpoint (Or.inl ⟨2, 2, 0, by decide⟩)⟩

/-- C4: when the receive succeeds and the sender is not of family `AF_INET`,
the handler makes two calls, `recvmsg` and the `log_warnx` that reports it, and
none of `do_packet`; the ancillary data plays no part, so that the same two
calls are made whatever `msg_controllen` and the chain are. -/
theorem handler_drops_non_inet_source (c : Consts) (w : World) (stk : Stack) (p : protocol)
    (d : datagram) (hrecv : w.pending p.loc.sock = some d)
    (hsrc : d.src.sin_family ≠ c.AF_INET) :
    udpsock_handler c w stk p =
      [Event.recvmsg p.loc.sock 4095 256 ((min d.data.length 4095 : Nat) : Int),
       Event.log_warnx "received DHCP message is not AF_INET"] ∧
    (udpsock_handler c w stk p).countP Event.is_do_packet = 0 ∧
    ∀ (k : Nat) (chain : List cmsghdr),
      udpsock_handler c
        { w with pending := fun fd =>
            if fd = p.loc.sock then some { d with msg_controllen := k, control := chain }
            else w.pending fd } stk p = udpsock_handler c w stk p := by
  have key : ∀ (w1 : World) (d1 : datagram), w1.pending p.loc.sock = some d1 →
      d1.src.sin_family ≠ c.AF_INET →
      udpsock_handler c w1 stk p =
        [Event.recvmsg p.loc.sock 4095 256 ((min d1.data.length 4095 : Nat) : Int),
         Event.log_warnx "received DHCP message is not AF_INET"] := by
    intro w1 d1 h1 h2
    have hlen := recvmsg_len_ne w1 p.loc.sock stk 4095 256 d1 h1
    have hm := recvmsg_some w1 p.loc.sock stk 4095 256 d1 h1
    unfold udpsock_handler
    simp only [hlen, if_false]
    rw [hm]
    simp only [ne_eq, h2, not_false_eq_true, if_true, List.singleton_append]
  refine ⟨key w d hrecv hsrc, ?_, ?_⟩
  · rw [key w d hrecv hsrc]
    simp [List.countP_cons, Event.is_do_packet]
  · intro k chain
    rw [key w d hrecv hsrc]
    exact key _ { d with msg_controllen := k, control := chain } (by simp) hsrc

/-- Witness for C4: a sender of family 28. -/
theorem handler_drops_non_inet_source_witness :
    udpsock_handler bsd lan_inet6 stack0 endpoint =
      [Event.recvmsg 3 4095 256 8, Event.log_warnx "received DHCP message is not AF_INET"] :=
  (handler_drops_non_inet_source bsd lan_inet6 stack0 endpoint
    { forged with src := ⟨28, 28, 546, ⟨0, 0, 0, 0⟩⟩ } (by decide) (by decide)).1

/-- C5: when the receive succeeds, the sender is of family `AF_INET`, the chain
holds a record `cm` of level `IPPROTO_IP` and type `IP_RECVIF` with no such
record after it, `socket` gives a descriptor, `ioctl` succeeds with an address
of family `AF_INET` and `find_subnet` gives a subnet, the handler calls
`do_packet` exactly once, with an interface whose name is the local `ifname`
(the name `if_indextoname` gave for the index of `cm`, when it gave one that
fits), whose index is that of `cm`, whose primary address is the one `ioctl`
gave, whose shared network is that of the subnet, whose `wfdesc` is the socket
of the endpoint, whose `send_packet` is `udpsock_send_packet` and whose
`is_udpsock` is 1. -/
theorem handler_dispatches_once (c : Consts) (w : World) (stk : Stack) (p : protocol)
    (d : datagram) (pre post : List cmsghdr) (cm : cmsghdr) (named : Option CStr)
    (fd ret : Int) (a : sockaddr_in) (sn : subnet)
    (hrecv : w.pending p.loc.sock = some d)
    (hsrc : d.src.sin_family = c.AF_INET)
    (hctl : d.msg_controllen ≠ 0)
    (hchain : d.control = pre ++ cm :: post)
    (hcm : is_recvif c cm)
    (hpost : ∀ x ∈ post, ¬ is_recvif c x)
    (hname : w.if_indextoname cm.data.sdl_index = named)
    (hsock : w.socket c.AF_INET c.SOCK_DGRAM 0 = fd)
    (hfd : fd ≠ -1)
    (hioctl : w.ioctl fd c.SIOCGIFADDR
      (strlcpy stk.ifr_name (named.getD stk.ifname) c.IFNAMSIZ) = (ret, a))
    (hret : ret ≠ -1)
    (hfam : a.sin_family = c.AF_INET)
    (hsub : w.find_subnet ⟨4, memcpy stk.addr_iabuf a.sin_addr.bytes 4⟩ = some sn) :
    ∃ iface packet len port from_ hw,
      (udpsock_handler c w stk p).filter Event.is_do_packet =
        [Event.do_packet iface packet len port from_ hw] ∧
      iface.name = strlcpy [] (named.getD stk.ifname) c.sizeof_iface_name ∧
      (∀ nm, named = some nm → nm.length < c.sizeof_iface_name → iface.name = nm) ∧
      iface.index = cm.data.sdl_index ∧
      iface.primary_address = a.sin_addr ∧
      iface.shared_network = sn.shared_network ∧
      iface.wfdesc = p.loc.sock ∧
      iface.send_packet = fn_ptr.udpsock_send_packet ∧
      iface.is_udpsock = 1 := by
  have hlen := recvmsg_len_ne w p.loc.sock stk 4095 256 d hrecv
  have hm := recvmsg_some w p.loc.sock stk 4095 256 d hrecv
  have hsdl : find_sdl c (recvmsg w p.loc.sock stk 4095 256) = some cm.data := by
    rw [hm]
    simp only [find_sdl, hctl, if_false, hchain]
    exact scan_cmsgs_last c pre post cm none hcm hpost
  have hsrc2 : (recvmsg w p.loc.sock stk 4095 256).ss.sin_family = c.AF_INET := by
    rw [hm]; exact hsrc
  subst hname hsock
  refine ⟨iface_of c w stk p cm.data sn, (recvmsg w p.loc.sock stk 4095 256).packetbuf,
    (recvmsg w p.loc.sock stk 4095 256).len, (recvmsg w p.loc.sock stk 4095 256).ss.sin_port,
    from_of stk (recvmsg w p.loc.sock stk 4095 256), zero_hardware c, ?_, ?_, ?_, ?_, ?_, ?_,
    ?_, ?_, ?_⟩
  · unfold udpsock_handler
    simp only [hlen, if_false, ne_eq, hsrc2, not_true_eq_false, hsdl, hfd, hioctl, hret, hfam,
      hsub, iface_of, from_of, answer_of, sockio_of, ifr_name_of, ifname_after,
      zero_interface_info]
    simp [List.filter_cons, Event.is_do_packet]
  · rfl
  · intro nm hnm hfit
    simp only [iface_of, ifname_after, hnm, Option.getD_some]
    exact strlcpy_fits [] nm _ hfit
  · rfl
  · simp only [iface_of, answer_of, sockio_of, ifr_name_of, ifname_after, hioctl]
  · rfl
  · rfl
  · rfl
  · rfl

/-- Witness for C5: the scenario, with a chain that names interface 2 before
interface 1; the handler dispatches for interface 1, `eth0`. -/
theorem handler_dispatches_once_witness :
    ∃ iface packet len port from_ hw,
      (udpsock_handler bsd lan_twice stack0 endpoint).filter Event.is_do_packet =
        [Event.do_packet iface packet len port from_ hw] ∧
      iface.name = strlcpy [] eth0 16 ∧
      (∀ nm, some eth0 = some nm → nm.length < 16 → iface.name = nm) ∧
      iface.index = 1 ∧
      iface.primary_address = ⟨10, 0, 0, 1⟩ ∧
      iface.shared_network = 1000 ∧
      iface.wfdesc = 3 ∧
      iface.send_packet = fn_ptr.udpsock_send_packet ∧
      iface.is_udpsock = 1 :=
  handler_dispatches_once bsd lan_twice stack0 endpoint
    { forged with control := [⟨0, 20, ⟨2⟩⟩, other_cmsg, recvif_1] }
    [⟨0, 20, ⟨2⟩⟩, other_cmsg] [] recvif_1 (some eth0) 4 0 ⟨16, 2, 0, ⟨10, 0, 0, 1⟩⟩ ⟨1000⟩
    (by decide) (by decide) (by decide) (by decide) (by decide) (by decide) (by decide)
    (by decide) (by decide) (by decide) (by decide) (by decide) (by decide)

/-- C6: the arguments of every call of `do_packet` the handler makes: the
packet buffer as `recvmsg` left it, whose first `len` bytes are the datagram
cut to 4095 bytes; a length that is the value `recvmsg` returned, between 0
and 4095; the port of the sender; a `from` of length 4 whose first four bytes
are the address of the sender; and a `hw` whose bytes are all zero. -/
theorem dispatch_arguments (c : Consts) (w : World) (stk : Stack) (p : protocol)
    (iface : interface_info) (packet : List Nat) (len : Int) (port : Nat) (from_ : iaddr)
    (hw : hardware)
    (h : Event.do_packet iface packet len port from_ hw ∈ udpsock_handler c w stk p) :
    ∃ d, w.pending p.loc.sock = some d ∧
      packet = (recvmsg w p.loc.sock stk 4095 256).packetbuf ∧
      packet.take len.toNat = d.data.take 4095 ∧
      len = (recvmsg w p.loc.sock stk 4095 256).len ∧
      Event.recvmsg p.loc.sock 4095 256 len ∈ udpsock_handler c w stk p ∧
      0 ≤ len ∧ len ≤ 4095 ∧
      port = d.src.sin_port ∧
      from_.len = 4 ∧
      from_.iabuf.take 4 = d.src.sin_addr.bytes ∧
      hw.bytes.length = c.sizeof_hardware ∧
      ∀ b ∈ hw.bytes, b = 0 := by
  rcases udpsock_handler_paths c w stk p with
    ⟨_, ht⟩ | ⟨_, _, ht⟩ | ⟨_, _, _, ht⟩ | ⟨sdl, hlen, _, _, hp⟩
  · rw [ht] at h; simp at h
  · rw [ht] at h; simp at h
  · rw [ht] at h; simp at h
  · rcases hp with ⟨_, ht⟩ | ⟨_, _, ht⟩ | ⟨_, _, _, ht⟩ | ⟨_, _, _, _, ht⟩ |
      ⟨sn, _, _, _, _, ht⟩
    · rw [ht] at h; simp [calls_to_socket, call_ioctl] at h
    · rw [ht] at h; simp [calls_to_socket, call_ioctl] at h
    · rw [ht] at h; simp [calls_to_socket, call_ioctl] at h
    · rw [ht] at h; simp [calls_to_socket, call_ioctl] at h
    · obtain ⟨d, hd⟩ := received_of_some w stk p hlen
      have hm := recvmsg_some w p.loc.sock stk 4095 256 d hd
      have hl : (recvmsg w p.loc.sock stk 4095 256).len = ((min d.data.length 4095 : Nat) : Int) := by
        rw [hm]
      have hb : (recvmsg w p.loc.sock stk 4095 256).packetbuf =
          memcpy stk.packetbuf d.data (min d.data.length 4095) := by
        rw [hm]
      have hs : (recvmsg w p.loc.sock stk 4095 256).ss = d.src := by
        rw [hm]
      rw [ht] at h ⊢
      simp only [calls_to_socket, call_ioctl, List.cons_append, List.nil_append, List.mem_cons,
        List.mem_singleton, List.not_mem_nil, or_false, reduceCtorEq, false_or,
        Event.do_packet.injEq, received_of] at h
      obtain ⟨_, hpk, hln, hpt, hfr, hhw⟩ := h
      refine ⟨d, hd, hpk, ?_, hln, ?_, ?_, ?_, ?_, ?_, ?_, ?_, ?_⟩
      · rw [hpk, hln, hb, hl]
        simp only [Int.toNat_ofNat, memcpy]
        rw [List.take_append_of_le_length (by simp)]
        simp [List.take_take, Nat.min_comm]
      · rw [hln]
        simp [calls_to_socket, received_of]
      · rw [hln, hl]
        omega
      · rw [hln, hl]
        omega
      · rw [hpt, hs]
      · rw [hfr]
        rfl
      · rw [hfr]
        simp [from_of, memcpy, in_addr.bytes, hs]
      · rw [hhw]
        simp [zero_hardware]
      · intro b hb
        rw [hhw] at hb
        simp only [zero_hardware] at hb
        exact List.eq_of_mem_replicate hb

/-- Witness for C6: the call of `do_packet` of the scenario, with the 8 bytes of
the datagram, length 8, port 68 and the address `10.0.0.55`. -/
theorem dispatch_arguments_witness :
    dispatch_eth0 ∈ udpsock_handler bsd lan stack0 endpoint ∧
    ∃ d, lan.pending 3 = some d ∧
      [1, 2, 3, 4, 5, 6, 7, 8, 170, 170, 170, 170, 170, 170, 170, 170] =
        (recvmsg lan 3 stack0 4095 256).packetbuf ∧
      List.take (8 : Int).toNat [1, 2, 3, 4, 5, 6, 7, 8, 170, 170, 170, 170, 170, 170, 170, 170] =
        d.data.take 4095 ∧
      (8 : Int) = (recvmsg lan 3 stack0 4095 256).len ∧
      Event.recvmsg 3 4095 256 8 ∈ udpsock_handler bsd lan stack0 endpoint ∧
      (0 : Int) ≤ 8 ∧ (8 : Int) ≤ 4095 ∧
      68 = d.src.sin_port ∧
      (4 : Nat) = 4 ∧
      List.take 4 [10, 0, 0, 55, 170, 170, 170, 170, 170, 170, 170, 170, 170, 170, 170, 170] =
        d.src.sin_addr.bytes ∧
      (List.replicate 18 0).length = 18 ∧
      ∀ b ∈ List.replicate 18 0, b = 0 :=
  ⟨by decide,
    dispatch_arguments bsd lan stack0 endpoint iface_eth0
      [1, 2, 3, 4, 5, 6, 7, 8, 170, 170, 170, 170, 170, 170, 170, 170] 8 68
      ⟨4, [10, 0, 0, 55, 170, 170, 170, 170, 170, 170, 170, 170, 170, 170, 170, 170]⟩
      ⟨List.replicate 18 0⟩ (by decide)⟩

/-- C7, as the claim has it, fails: when `eth0` has an address outside every
configured subnet, `find_subnet` answers `NULL` and the handler returns with no
message in the log. -/
theorem unknown_subnet_drop_not_logged :
    Event.find_subnet addr_elsewhere none ∈ udpsock_handler bsd lan_elsewhere stack0 endpoint ∧
    (udpsock_handler bsd lan_elsewhere stack0 endpoint).countP Event.is_do_packet = 0 ∧
    (udpsock_handler bsd lan_elsewhere stack0 endpoint).countP Event.is_log = 0 := by
  decide

/-- C7, as the code has it: on five of the drop paths the handler logs: a
failed receive, a sender that is not `AF_INET`, a chain without a record of the
receiving interface, a failed `socket` and a failed `ioctl` each put their
message in the log. On the other two (an address from `ioctl` that is not
`AF_INET`, and an address `find_subnet` does not know) the handler returns
without a message, and without a call of `do_packet`. -/
theorem handler_drop_logging (c : Consts) (w : World) (stk : Stack) (p : protocol) :
    (w.pending p.loc.sock = none →
      Event.log_warn "receiving a DHCP message failed" [] ∈ udpsock_handler c w stk p) ∧
    (∀ d, w.pending p.loc.sock = some d → d.src.sin_family ≠ c.AF_INET →
      Event.log_warnx "received DHCP message is not AF_INET" ∈ udpsock_handler c w stk p) ∧
    (∀ d, w.pending p.loc.sock = some d → d.src.sin_family = c.AF_INET →
      (d.msg_controllen = 0 ∨ ∀ cm ∈ d.control, ¬ is_recvif c cm) →
      Event.log_warnx "could not get the received interface by IP_RECVIF" ∈
        udpsock_handler c w stk p) ∧
    (∀ dm ty pr, Event.socket dm ty pr (-1) ∈ udpsock_handler c w stk p →
      Event.log_warn "socket creation failed" [] ∈ udpsock_handler c w stk p) ∧
    (∀ fd rq nm a, Event.ioctl fd rq nm (-1) a ∈ udpsock_handler c w stk p →
      ∃ ifname, Event.log_warn "Failed to get address for %s" [ifname] ∈
        udpsock_handler c w stk p) ∧
    (∀ fd rq nm ret a, Event.ioctl fd rq nm ret a ∈ udpsock_handler c w stk p →
      ret ≠ -1 → a.sin_family ≠ c.AF_INET →
      (udpsock_handler c w stk p).countP Event.is_log = 0 ∧
      (udpsock_handler c w stk p).countP Event.is_do_packet = 0) ∧
    (∀ addr, Event.find_subnet addr none ∈ udpsock_handler c w stk p →
      (udpsock_handler c w stk p).countP Event.is_log = 0 ∧
      (udpsock_handler c w stk p).countP Event.is_do_packet = 0) := by
  refine ⟨?_, ?_, ?_, ?_, ?_, ?_, ?_⟩
  · intro hnone
    unfold udpsock_handler
    simp [recvmsg, hnone]
  · intro d hd hsrc
    have hlen := recvmsg_len_ne w p.loc.sock stk 4095 256 d hd
    have hm := recvmsg_some w p.loc.sock stk 4095 256 d hd
    have hs : (recvmsg w p.loc.sock stk 4095 256).ss.sin_family ≠ c.AF_INET := by
      rw [hm]; exact hsrc
    unfold udpsock_handler
    simp [hlen, hs]
  · intro d hd hsrc hnone
    have hlen := recvmsg_len_ne w p.loc.sock stk 4095 256 d hd
    have hm := recvmsg_some w p.loc.sock stk 4095 256 d hd
    have hs : (recvmsg w p.loc.sock stk 4095 256).ss.sin_family = c.AF_INET := by
      rw [hm]; exact hsrc
    have hsdl : find_sdl c (recvmsg w p.loc.sock stk 4095 256) = none := by
      rw [find_sdl_none_iff, hm]
      exact hnone
    unfold udpsock_handler
    simp [hlen, hs, hsdl]
  · intro dm ty pr h
    rcases udpsock_handler_paths c w stk p with
      ⟨_, ht⟩ | ⟨_, _, ht⟩ | ⟨_, _, _, ht⟩ | ⟨sdl, _, _, _, hp⟩
    · rw [ht] at h; simp at h
    · rw [ht] at h; simp at h
    · rw [ht] at h; simp at h
    · rcases hp with ⟨_, ht⟩ | ⟨hs, _, ht⟩ | ⟨hs, _, _, ht⟩ | ⟨hs, _, _, _, ht⟩ |
        ⟨sn, hs, _, _, _, ht⟩
      · rw [ht]; simp
      all_goals
        exfalso
        rw [ht] at h
        simp only [calls_to_socket, call_ioctl, List.cons_append, List.nil_append,
          List.mem_cons, List.mem_singleton, List.not_mem_nil, or_false, reduceCtorEq,
          false_or, Event.socket.injEq] at h
        exact hs h.2.2.2.symm
  · intro fd rq nm a h
    rcases udpsock_handler_paths c w stk p with
      ⟨_, ht⟩ | ⟨_, _, ht⟩ | ⟨_, _, _, ht⟩ | ⟨sdl, _, _, _, hp⟩
    · rw [ht] at h; simp at h
    · rw [ht] at h; simp at h
    · rw [ht] at h; simp at h
    · rcases hp with ⟨_, ht⟩ | ⟨_, _, ht⟩ | ⟨_, hi, _, ht⟩ | ⟨_, hi, _, _, ht⟩ |
        ⟨sn, _, hi, _, _, ht⟩
      · rw [ht] at h; simp [calls_to_socket] at h
      · exact ⟨ifname_after w stk sdl, by rw [ht]; simp⟩
      all_goals
        exfalso
        rw [ht] at h
        simp only [calls_to_socket, call_ioctl, List.cons_append, List.nil_append,
          List.mem_cons, List.mem_singleton, List.not_mem_nil, or_false, reduceCtorEq,
          false_or, Event.ioctl.injEq] at h
        exact hi h.2.2.2.1.symm
  · intro fd rq nm ret a h hret hfam
    rcases udpsock_handler_paths c w stk p with
      ⟨_, ht⟩ | ⟨_, _, ht⟩ | ⟨_, _, _, ht⟩ | ⟨sdl, _, _, _, hp⟩
    · rw [ht] at h; simp at h
    · rw [ht] at h; simp at h
    · rw [ht] at h; simp at h
    · rcases hp with ⟨_, ht⟩ | ⟨_, hi, ht⟩ | ⟨_, _, _, ht⟩ | ⟨_, _, hf, _, ht⟩ |
        ⟨sn, _, _, hf, _, ht⟩
      · rw [ht] at h; simp [calls_to_socket] at h
      · exfalso
        rw [ht] at h
        simp only [calls_to_socket, call_ioctl, List.cons_append, List.nil_append,
          List.mem_cons, List.mem_singleton, List.not_mem_nil, or_false, reduceCtorEq,
          false_or, Event.ioctl.injEq] at h
        exact hret (h.2.2.2.1.trans hi)
      · rw [ht]
        simp [calls_to_socket, call_ioctl, List.countP_cons, Event.is_log, Event.is_do_packet]
      all_goals
        exfalso
        rw [ht] at h
        simp only [calls_to_socket, call_ioctl, List.cons_append, List.nil_append,
          List.mem_cons, List.mem_singleton, List.not_mem_nil, or_false, reduceCtorEq,
          false_or, Event.ioctl.injEq] at h
        rw [h.2.2.2.2] at hfam
        exact hfam hf
  · intro addr h
    rcases udpsock_handler_paths c w stk p with
      ⟨_, ht⟩ | ⟨_, _, ht⟩ | ⟨_, _, _, ht⟩ | ⟨sdl, _, _, _, hp⟩
    · rw [ht] at h; simp at h
    · rw [ht] at h; simp at h
    · rw [ht] at h; simp at h
    · rcases hp with ⟨_, ht⟩ | ⟨_, _, ht⟩ | ⟨_, _, _, ht⟩ | ⟨_, _, _, _, ht⟩ |
        ⟨sn, _, _, _, _, ht⟩
      · rw [ht] at h; simp [calls_to_socket, call_ioctl] at h
      · rw [ht] at h; simp [calls_to_socket, call_ioctl] at h
      · rw [ht] at h; simp [calls_to_socket, call_ioctl] at h
      · rw [ht]
        simp [calls_to_socket, call_ioctl, List.countP_cons, Event.is_log, Event.is_do_packet]
      · rw [ht] at h; simp [calls_to_socket, call_ioctl] at h

/-- Witness for C7 as the code has it: `socket` fails and the failure is logged. -/
theorem handler_drop_logging_witness :
    Event.socket 2 2 0 (-1) ∈ udpsock_handler bsd lan_no_fd stack0 endpoint ∧
    Event.log_warn "socket creation failed" [] ∈ udpsock_handler bsd lan_no_fd stack0 endpoint :=
  ⟨by decide,
    (handler_drop_logging bsd lan_no_fd stack0 endpoint).2.2.2.1 2 2 0 (by decide)⟩

/-- C8: the control socket is closed exactly once when, and only when,
`socket` gave a descriptor; every `close` is on that descriptor; at each call
of `find_subnet` or `do_packet` the calls already made hold as many `close` as
the run has successful `socket` calls, so that the close comes first and
nothing is left open on any path; and, the descriptor of the endpoint being
open and therefore not the one `socket` gives, the socket of the endpoint is
never closed. -/
theorem control_socket_closed_once (c : Consts) (w : World) (stk : Stack) (p : protocol)
    (hfresh : w.socket c.AF_INET c.SOCK_DGRAM 0 ≠ p.loc.sock) :
    ((udpsock_handler c w stk p).countP Event.is_close = 1 ↔
      ∃ dm ty pr fd, Event.socket dm ty pr fd ∈ udpsock_handler c w stk p ∧ fd ≠ -1) ∧
    (udpsock_handler c w stk p).countP Event.is_close ≤ 1 ∧
    (udpsock_handler c w stk p).countP Event.is_opened =
      (udpsock_handler c w stk p).countP Event.is_close ∧
    (∀ fd, Event.close fd ∈ udpsock_handler c w stk p →
      fd ≠ -1 ∧ Event.socket c.AF_INET c.SOCK_DGRAM 0 fd ∈ udpsock_handler c w stk p) ∧
    (∀ pre e post, udpsock_handler c w stk p = pre ++ e :: post →
      (e.is_find_subnet = true ∨ e.is_do_packet = true) →
      pre.countP Event.is_close = (udpsock_handler c w stk p).countP Event.is_opened) ∧
    Event.close p.loc.sock ∉ udpsock_handler c w stk p := by
  obtain ⟨h1, h2, h3, h4⟩ := udpsock_handler_close_counts c w stk p
  refine ⟨?_, h2, h1.symm, ?_, ?_, ?_⟩
  · rw [h1]
    constructor
    · intro hone
      have hpos : 0 < (udpsock_handler c w stk p).countP Event.is_opened := by omega
      obtain ⟨e, he, hop⟩ := List.countP_pos_iff.mp hpos
      cases e with
      | socket dm ty pr fd =>
        refine ⟨dm, ty, pr, fd, he, ?_⟩
        simpa [Event.is_opened] using hop
      | _ => simp [Event.is_opened] at hop
    · rintro ⟨dm, ty, pr, fd, he, hfd⟩
      have hpos : 0 < (udpsock_handler c w stk p).countP Event.is_opened :=
        List.countP_pos_iff.mpr ⟨_, he, by simp [Event.is_opened, hfd]⟩
      omega
  · intro fd hfd
    exact ⟨(h4 fd hfd).2.1, (h4 fd hfd).2.2⟩
  · intro pre e post ht he
    have hq : Event.is_lookup_or_dispatch e = true := by
      simp only [Event.is_lookup_or_dispatch, Bool.or_eq_true]
      exact he
    exact countP_before_stop Event.is_lookup_or_dispatch Event.is_close _ pre post e _ ht hq
      h3 h1
  · intro hmem
    exact hfresh (h4 _ hmem).1.symm

/-- Witness for C8: the scenario, where `socket` gives descriptor 4 and the
endpoint is on descriptor 3. -/
theorem control_socket_closed_once_witness :
    lan.socket 2 2 0 ≠ endpoint.loc.sock ∧
    (udpsock_handler bsd lan stack0 endpoint).countP Event.is_close ≤ 1 ∧
    (udpsock_handler bsd lan stack0 endpoint).countP Event.is_opened =
      (udpsock_handler bsd lan stack0 endpoint).countP Event.is_close ∧
    Event.close 3 ∉ udpsock_handler bsd lan stack0 endpoint :=
  ⟨by decide,
    (control_socket_closed_once bsd lan stack0 endpoint (by decide)).2.1,
    (control_socket_closed_once bsd lan stack0 endpoint (by decide)).2.2.1,
    (control_socket_closed_once bsd lan stack0 endpoint (by decide)).2.2.2.2.2⟩

/-! ## The claims about `udpsock_startup` and `udpsock_send_packet` -/

/-- C9, as the claim has it, fails: with `__FreeBSD__` defined, `socket`,
`setsockopt` and `bind` succeed, the handler is registered, and then
`cap_rights_limit` fails: `udpsock_startup` stops with `fatal`, and the record
holds 0, not descriptor 4. -/
theorem startup_fatal_after_bind :
    startup_sock bsd lan_no_limit = 4 ∧
    startup_opt bsd lan_no_limit = 0 ∧
    startup_bind bsd lan_no_limit port_67 any_addr = 0 ∧
    (udpsock_startup bsd lan_no_limit port_67 any_addr).trace.countP Event.is_add_protocol = 1 ∧
    Event.fatal "failed to cap_rights_limit on udp socket" ∈
      (udpsock_startup bsd lan_no_limit port_67 any_addr).trace ∧
    (udpsock_startup bsd lan_no_limit port_67 any_addr).returned = false ∧
    (udpsock_startup bsd lan_no_limit port_67 any_addr).udpsock = some ⟨0⟩ ∧
    (udpsock_startup bsd lan_no_limit port_67 any_addr).udpsock ≠ some ⟨4⟩ := by
  decide

/-- C9, as the code has it: `udpsock_startup` stops with `fatal` at the first
of `calloc`, `socket`, `setsockopt` and `bind` that fails, having made the
calls up to that one and no other, so that `add_protocol` is not called; when
all four succeed it calls `add_protocol` exactly once, with the name `udp`,
the descriptor that was bound to `bindaddr` and `server_port`, `udpsock_handler`
and the record; after that, where `__FreeBSD__` is defined and
`cap_rights_limit` gives a negative value it stops with `fatal` and the record
keeps the zero of `calloc`, and otherwise it returns with that descriptor in the
record. -/
theorem startup_outcomes (c : Consts) (w : World) (server_port : Nat) (bindaddr : in_addr) :
    (startup_ptr c w = 0 →
      udpsock_startup c w server_port bindaddr =
        ⟨[Event.calloc 1 c.sizeof_udpsock 0, Event.fatal "could not create udpsock"],
          none, false⟩) ∧
    (startup_ptr c w ≠ 0 → startup_sock c w = -1 →
      udpsock_startup c w server_port bindaddr =
        ⟨(calls_to_bind c w server_port bindaddr).take 2 ++
            [Event.fatal "creating a socket failed for udp"], some ⟨0⟩, false⟩) ∧
    (startup_ptr c w ≠ 0 → startup_sock c w ≠ -1 → startup_opt c w ≠ 0 →
      udpsock_startup c w server_port bindaddr =
        ⟨(calls_to_bind c w server_port bindaddr).take 3 ++
            [Event.fatal "setsocketopt IP_RECVIF failed for udp"], some ⟨0⟩, false⟩) ∧
    (startup_ptr c w ≠ 0 → startup_sock c w ≠ -1 → startup_opt c w = 0 →
      startup_bind c w server_port bindaddr ≠ 0 →
      udpsock_startup c w server_port bindaddr =
        ⟨calls_to_bind c w server_port bindaddr ++ [Event.fatal "bind failed for udp"],
          some ⟨0⟩, false⟩) ∧
    ((startup_ptr c w = 0 ∨ startup_sock c w = -1 ∨ startup_opt c w ≠ 0 ∨
        startup_bind c w server_port bindaddr ≠ 0) →
      (udpsock_startup c w server_port bindaddr).trace.countP Event.is_add_protocol = 0 ∧
      (udpsock_startup c w server_port bindaddr).returned = false) ∧
    (startup_ptr c w ≠ 0 → startup_sock c w ≠ -1 → startup_opt c w = 0 →
      startup_bind c w server_port bindaddr = 0 →
      (udpsock_startup c w server_port bindaddr).trace.filter Event.is_add_protocol =
        [Event.add_protocol "udp" (startup_sock c w) fn_ptr.udpsock_handler
          (startup_ptr c w)] ∧
      Event.bind (startup_sock c w) (startup_sin4 c server_port bindaddr)
        c.sizeof_sockaddr_in 0 ∈ (udpsock_startup c w server_port bindaddr).trace ∧
      ((c.FreeBSD = false ∨ 0 ≤ startup_limit c w) →
        (udpsock_startup c w server_port bindaddr).returned = true ∧
        (udpsock_startup c w server_port bindaddr).udpsock = some ⟨startup_sock c w⟩ ∧
        (udpsock_startup c w server_port bindaddr).trace.countP Event.is_fatal = 0) ∧
      (c.FreeBSD = true → startup_limit c w < 0 →
        udpsock_startup c w server_port bindaddr =
          ⟨calls_to_bind c w server_port bindaddr ++
              [Event.add_protocol "udp" (startup_sock c w) fn_ptr.udpsock_handler
                 (startup_ptr c w),
               Event.cap_rights_limit (startup_sock c w)
                 [c.CAP_READ, c.CAP_WRITE, c.CAP_CONNECT] (startup_limit c w),
               Event.fatal "failed to cap_rights_limit on udp socket"],
            some ⟨0⟩, false⟩)) := by
  refine ⟨?_, ?_, ?_, ?_, ?_, ?_⟩
  · intro hp
    simp only [startup_ptr] at hp
    simp [udpsock_startup, fatal, hp]
  · intro hp hs
    simp only [startup_ptr, startup_sock] at hp hs
    simp [udpsock_startup, fatal, hp, hs, calls_to_bind, startup_ptr, startup_sock]
  · intro hp hs ho
    simp only [startup_ptr, startup_sock, startup_opt] at hp hs ho
    simp [udpsock_startup, fatal, hp, hs, ho, calls_to_bind, startup_ptr, startup_sock,
      startup_opt]
  · intro hp hs ho hb
    simp only [startup_ptr, startup_sock, startup_opt, startup_bind, startup_sin4] at hp hs ho hb
    simp [udpsock_startup, fatal, hp, hs, ho, hb, calls_to_bind, startup_ptr, startup_sock,
      startup_opt, startup_bind, startup_sin4]
  · intro hfail
    simp only [startup_ptr, startup_sock, startup_opt, startup_bind, startup_sin4] at hfail
    by_cases hp : w.calloc 1 c.sizeof_udpsock = 0
    · simp [udpsock_startup, fatal, hp, List.countP_cons, Event.is_add_protocol]
    by_cases hs : w.socket c.AF_INET c.SOCK_DGRAM c.IPPROTO_UDP = -1
    · simp [udpsock_startup, fatal, hp, hs, List.countP_cons, Event.is_add_protocol]
    by_cases ho : w.setsockopt (w.socket c.AF_INET c.SOCK_DGRAM c.IPPROTO_UDP) c.IPPROTO_IP
        c.IP_RECVIF 1 c.sizeof_int = 0
    swap
    · simp [udpsock_startup, fatal, hp, hs, ho, List.countP_cons, Event.is_add_protocol]
    have hb : w.bind (w.socket c.AF_INET c.SOCK_DGRAM c.IPPROTO_UDP)
        { sin_len := c.sizeof_sockaddr_in, sin_family := c.AF_INET, sin_port := server_port,
          sin_addr := bindaddr } c.sizeof_sockaddr_in ≠ 0 := by
      rcases hfail with h | h | h | h
      · exact absurd h hp
      · exact absurd h hs
      · exact absurd ho h
      · exact h
    simp [udpsock_startup, fatal, hp, hs, ho, hb, List.countP_cons, Event.is_add_protocol]
  · intro hp hs ho hb
    simp only [startup_ptr, startup_sock, startup_opt, startup_bind, startup_sin4] at hp hs ho hb
    refine ⟨?_, ?_, ?_, ?_⟩
    · cases hF : c.FreeBSD
      · simp [udpsock_startup, fatal, startup_finish, hp, hs, ho, hb, hF, startup_ptr,
          startup_sock, List.filter_cons, Event.is_add_protocol]
      · by_cases hl : w.cap_rights_limit (w.socket c.AF_INET c.SOCK_DGRAM c.IPPROTO_UDP)
            [c.CAP_READ, c.CAP_WRITE, c.CAP_CONNECT] < 0
        · simp [udpsock_startup, fatal, startup_finish, hp, hs, ho, hb, hF, hl, startup_ptr,
            startup_sock, List.filter_cons, Event.is_add_protocol]
        · simp [udpsock_startup, fatal, startup_finish, hp, hs, ho, hb, hF, hl, startup_ptr,
            startup_sock, List.filter_cons, Event.is_add_protocol]
    · cases hF : c.FreeBSD
      · simp [udpsock_startup, fatal, startup_finish, hp, hs, ho, hb, hF, startup_ptr,
          startup_sock, startup_sin4]
      · by_cases hl : w.cap_rights_limit (w.socket c.AF_INET c.SOCK_DGRAM c.IPPROTO_UDP)
            [c.CAP_READ, c.CAP_WRITE, c.CAP_CONNECT] < 0
        · simp [udpsock_startup, fatal, startup_finish, hp, hs, ho, hb, hF, hl, startup_ptr,
            startup_sock, startup_sin4]
        · simp [udpsock_startup, fatal, startup_finish, hp, hs, ho, hb, hF, hl, startup_ptr,
            startup_sock, startup_sin4]
    · intro hok
      cases hF : c.FreeBSD
      · simp [udpsock_startup, fatal, startup_finish, hp, hs, ho, hb, hF, startup_ptr,
          startup_sock, List.countP_cons, Event.is_fatal]
      · have hl : ¬ w.cap_rights_limit (w.socket c.AF_INET c.SOCK_DGRAM c.IPPROTO_UDP)
            [c.CAP_READ, c.CAP_WRITE, c.CAP_CONNECT] < 0 := by
          rcases hok with hF2 | hge
          · rw [hF] at hF2; cases hF2
          · simp only [startup_limit, startup_sock] at hge
            omega
        simp [udpsock_startup, fatal, startup_finish, hp, hs, ho, hb, hF, hl, startup_ptr,
          startup_sock, List.countP_cons, Event.is_fatal]
    · intro hF hl
      simp only [startup_limit, startup_sock] at hl
      simp [udpsock_startup, fatal, hp, hs, ho, hb, hF, hl, calls_to_bind, startup_ptr,
        startup_sock, startup_opt, startup_bind, startup_sin4, startup_limit]

/-- Witness for C9 as the code has it: `bind` fails, and `udpsock_startup` stops
there. -/
theorem startup_outcomes_witness :
    startup_bind bsd lan_in_use port_67 any_addr ≠ 0 ∧
    udpsock_startup bsd lan_in_use port_67 any_addr =
      ⟨calls_to_bind bsd lan_in_use port_67 any_addr ++ [Event.fatal "bind failed for udp"],
        some ⟨0⟩, false⟩ :=
  ⟨by decide,
    (startup_outcomes bsd lan_in_use port_67 any_addr).2.2.2.1 (by decide) (by decide)
      (by decide) (by decide)⟩

/-- C10: `udpsock_send_packet` makes one call, `sendto` on `interface->wfdesc`
with the payload, `len`, no flags, the destination and the size of a
`sockaddr_in`, and returns what that call returned; neither `from` nor `hto`
has any part in it. -/
theorem send_packet_single_sendto (c : Consts) (w : World) (interface : interface_info)
    (raw : List Nat) (len : Nat) (from_ : in_addr) (to_ : sockaddr_in) (hto : Option hardware) :
    (udpsock_send_packet c w interface raw len from_ to_ hto).2 =
      [Event.sendto interface.wfdesc raw len 0 to_ c.sizeof_sockaddr_in
        (w.sendto interface.wfdesc raw len 0 to_ c.sizeof_sockaddr_in)] ∧
    (udpsock_send_packet c w interface raw len from_ to_ hto).1 =
      w.sendto interface.wfdesc raw len 0 to_ c.sizeof_sockaddr_in ∧
    (udpsock_send_packet c w interface raw len from_ to_ hto).2.countP Event.is_send = 1 ∧
    ∀ (from2 : in_addr) (hto2 : Option hardware),
      udpsock_send_packet c w interface raw len from2 to_ hto2 =
        udpsock_send_packet c w interface raw len from_ to_ hto := by
  refine ⟨rfl, rfl, ?_, fun _ _ => rfl⟩
  simp [udpsock_send_packet, List.countP_cons, Event.is_send]

end Udpsock
